import Mathlib

/-!
Shallow embedding of `message/infrastructure/nats/subscriber.go` from the
watermill repository: the NATS-streaming subscriber (configuration defaults and
validation, the constructor, `Subscribe` with its per-worker watcher goroutines,
the `processMessage` delivery pipeline, and `Close`).

Durations are Go `time.Duration` values, i.e. signed nanosecond counts,
modelled as `Int`.  External collaborators (the stan connection, the
unmarshaler) are modelled as explicit outcome parameters.
-/

namespace WatermillNats

/-- Go `time.Duration`: a signed count of nanoseconds. -/
abbrev Duration := Int

/-- Go `time.Second`. -/
def timeSecond : Duration := 1000000000

/-- The `stan.SubscriptionOption` values this subscriber manipulates
(`stan.SetManualAckMode()`, `stan.AckWait(d)`, `stan.DurableName(n)`); any
caller-supplied option in `StanSubscriptionOptions` is an opaque `custom`. -/
inductive SubscriptionOption where
  | setManualAckMode
  | ackWait (d : Duration)
  | durableName (n : String)
  | custom (id : Nat)
deriving DecidableEq, Repr

/-- A broker-side `stan.Msg` (only the fields the subscriber reads matter). -/
structure StanMsg where
  sequence : Nat
  data : List Nat
deriving DecidableEq, Repr

/-- A watermill `message.Message` as produced by the unmarshaler (uuid and
payload; its context and ack/nack channels are modelled by the pipeline's
outcome parameters). -/
structure WMessage where
  UUID : String
  payload : List Nat
deriving DecidableEq, Repr

/-- The `Unmarshaler` interface: `Unmarshal(m) -> (msg, err)`; `none` models a
returned error. -/
def UnmarshalerFn := StanMsg → Option WMessage

/-- Model of `StreamingSubscriberConfig` (subscriber.go lines 17-75).  `Unmarshaler` is
an interface value, so `none` models the nil interface. -/
structure StreamingSubscriberConfig where
  ClusterID : String
  ClientID : String
  QueueGroup : String
  DurableName : String
  SubscribersCount : Int
  CloseTimeout : Duration
  AckWaitTimeout : Duration
  StanSubscriptionOptions : List SubscriptionOption
  Unmarshaler : Option UnmarshalerFn

/-- Model of `StreamingSubscriberConfig.setDefaults` (lines 77-97): fill `SubscribersCount`,
`CloseTimeout`, `AckWaitTimeout` when `<= 0`; append `SetManualAckMode` and
`AckWait(c.AckWaitTimeout)` to the subscription options; append
`DurableName(c.DurableName)` when `DurableName != ""`. -/
def StreamingSubscriberConfig.setDefaults (c : StreamingSubscriberConfig) :
    StreamingSubscriberConfig :=
  let c := if c.SubscribersCount ≤ 0 then { c with SubscribersCount := 1 } else c
  let c := if c.CloseTimeout ≤ 0 then { c with CloseTimeout := timeSecond * 30 } else c
  let c := if c.AckWaitTimeout ≤ 0 then { c with AckWaitTimeout := timeSecond * 30 } else c
  let c := { c with
    StanSubscriptionOptions := c.StanSubscriptionOptions ++
      [SubscriptionOption.setManualAckMode, SubscriptionOption.ackWait c.AckWaitTimeout] }
  if c.DurableName ≠ "" then
    { c with
      StanSubscriptionOptions := c.StanSubscriptionOptions ++
        [SubscriptionOption.durableName c.DurableName] }
  else c

/-- Model of `StreamingSubscriberConfig.Validate` (lines 99-113).  `some` carries the
`errors.New` message. -/
def StreamingSubscriberConfig.Validate (c : StreamingSubscriberConfig) : Option String :=
  if c.Unmarshaler.isNone then
    some "StreamingSubscriberConfig.Unmarshaler is missing"
  else if c.QueueGroup = "" ∧ c.SubscribersCount > 1 then
    some ("to set StreamingSubscriberConfig.SubscribersCount " ++
      "you need to also set StreamingSubscriberConfig.QueueGroup, " ++
      "in other case you will receive duplicated messages")
  else none

/-- The outcome of the external `stan.Connect` call. -/
inductive ConnectOutcome where
  | ok
  | failed (e : String)
deriving DecidableEq, Repr

/-- What `NewStreamingSubscriber` did: whether `stan.Connect` was reached, and
the error it returned (if any). -/
structure ConstructorTrace where
  connectAttempted : Bool
  err : Option String
deriving DecidableEq, Repr

/-- Model of `NewStreamingSubscriber` (lines 139-157): `setDefaults`, then `Validate`
(returning its error before any connection attempt), then `stan.Connect`
(wrapping a failure as "cannot connect to NATS"). -/
def NewStreamingSubscriber (config : StreamingSubscriberConfig)
    (connect : ConnectOutcome) : ConstructorTrace :=
  match config.setDefaults.Validate with
  | some e => { connectAttempted := false, err := some e }
  | none =>
    match connect with
    | .failed e => { connectAttempted := true, err := some ("cannot connect to NATS: " ++ e) }
    | .ok => { connectAttempted := true, err := none }

/-- Which case wins the first `select` of `processMessage` (lines 265-271):
either `output <- msg` succeeds, or `<-s.closing` fires first. -/
inductive DeliverOutcome where
  | sent
  | closingFired
deriving DecidableEq, Repr

/-- Which case wins the four-way resolution `select` of `processMessage`
(lines 273-288): `<-msg.Acked()`, `<-msg.Nacked()`,
`<-time.After(AckWaitTimeout)`, or `<-s.closing`. -/
inductive Resolution where
  | acked
  | nacked
  | ackWaitTimedOut
  | closingFired
deriving DecidableEq, Repr

/-- The externally visible effects of one `processMessage` run: how many times
`m.Ack()` was called, how many times the message was sent on `output`, whether
the per-message `cancelCtx` ran before return, and which failures were logged. -/
structure ProcessEffects where
  ackCalls : Nat
  outputSends : Nat
  cancelCalled : Bool
  unmarshalErrorLogged : Bool
  ackErrorLogged : Bool
deriving DecidableEq, Repr

/-- Model of `StreamingSubscriber.processMessage` (lines 237-289).  Parameters model the
environment: `closed` is `s.closed` at entry, `unmarshalResult` the unmarshaler
outcome, `deliver` and `res` which select cases fire, `ackErr` the result of
`m.Ack()` when it is called.  Control flow mirrors the source: early return when
closed; early return (log, drop) when unmarshaling fails; `context.WithCancel`
plus `defer cancelCtx()` after a successful unmarshal, so every later exit path
cancels the scope; `m.Ack()` is called only in the `Acked` branch, once. -/
def processMessage (closed : Bool) (unmarshalResult : Option WMessage)
    (deliver : DeliverOutcome) (res : Resolution) (ackErr : Option String) :
    ProcessEffects :=
  if closed then
    { ackCalls := 0, outputSends := 0, cancelCalled := false,
      unmarshalErrorLogged := false, ackErrorLogged := false }
  else
    match unmarshalResult with
    | none =>
      { ackCalls := 0, outputSends := 0, cancelCalled := false,
        unmarshalErrorLogged := true, ackErrorLogged := false }
    | some _ =>
      match deliver with
      | .closingFired =>
        { ackCalls := 0, outputSends := 0, cancelCalled := true,
          unmarshalErrorLogged := false, ackErrorLogged := false }
      | .sent =>
        match res with
        | .acked =>
          { ackCalls := 1, outputSends := 1, cancelCalled := true,
            unmarshalErrorLogged := false, ackErrorLogged := ackErr.isSome }
        | .nacked =>
          { ackCalls := 0, outputSends := 1, cancelCalled := true,
            unmarshalErrorLogged := false, ackErrorLogged := false }
        | .ackWaitTimedOut =>
          { ackCalls := 0, outputSends := 1, cancelCalled := true,
            unmarshalErrorLogged := false, ackErrorLogged := false }
        | .closingFired =>
          { ackCalls := 0, outputSends := 1, cancelCalled := true,
            unmarshalErrorLogged := false, ackErrorLogged := false }

/-- Events emitted by one `Subscribe` call: the single `s.outputsWg.Add(1)`, each
worker's `s.subscribe` call (with its success flag), each watcher goroutine
launch, each `s.subs = append(s.subs, sub)` registration, and — for
completeness of the vocabulary — a `sub.Close()` issued by `Subscribe` itself,
which the source never does (watchers close subscriptions later, on their
trigger). -/
inductive SubEvent where
  | wgAdd
  | brokerSubscribe (i : Nat) (ok : Bool)
  | watcherLaunch (i : Nat)
  | register (i : Nat)
  | subClose (i : Nat)
deriving DecidableEq, Repr

/-- Accumulated state of the `for i := 0; i < SubscribersCount; i++` loop of
`Subscribe` (lines 166-197): the event trace, the indexes of launched watcher
goroutines, the indexes appended to `s.subs`, and the wrapped error that aborts
the loop, if any. -/
structure SubscribeAcc where
  events : List SubEvent
  watchers : List Nat
  registered : List Nat
  err : Option String
deriving DecidableEq, Repr

/-- The loop body of `Subscribe` over the remaining worker indexes.  `subErr i`
is the outcome of worker `i`'s `s.subscribe` call (`some e` = broker subscribe
failure).  On failure the loop returns at once with the error wrapped as
"cannot subscribe"; on success the watcher goroutine is launched and the
subscription registered, in that order, and the loop continues. -/
def subscribeWorkers (subErr : Nat → Option String) :
    List Nat → SubscribeAcc → SubscribeAcc
  | [], acc => acc
  | i :: rest, acc =>
    match subErr i with
    | some e =>
      { acc with
        events := acc.events ++ [SubEvent.brokerSubscribe i false],
        err := some ("cannot subscribe: " ++ e) }
    | none =>
      subscribeWorkers subErr rest
        { events := acc.events ++
            [SubEvent.brokerSubscribe i true, SubEvent.watcherLaunch i, SubEvent.register i],
          watchers := acc.watchers ++ [i],
          registered := acc.registered ++ [i],
          err := acc.err }

/-- One `Subscribe` call (lines 162-200): make the output channel, perform
`s.outputsWg.Add(1)` once, then run the worker loop. -/
def SubscribeRun (subscribersCount : Nat) (subErr : Nat → Option String) : SubscribeAcc :=
  subscribeWorkers subErr (List.range subscribersCount)
    { events := [SubEvent.wgAdd], watchers := [], registered := [], err := none }

/-- What wakes a watcher goroutine: the global closing signal or the caller
context's cancellation (the `select` at lines 180-185). -/
inductive WatcherTrigger where
  | closingSignal
  | ctxDone
deriving DecidableEq, Repr

/-- Side effects of watcher goroutines. -/
structure WatcherEffects where
  subCloseCalls : Nat
  outputCloseCalls : Nat
  wgDoneCalls : Nat
deriving DecidableEq, Repr

/-- The body of one watcher goroutine (lines 179-192): after its trigger fires
it calls `sub.Close()`, `close(output)` and `s.outputsWg.Done()` — once each. -/
def watcherRun (t : WatcherTrigger) : WatcherEffects :=
  match t with
  | .closingSignal => { subCloseCalls := 1, outputCloseCalls := 1, wgDoneCalls := 1 }
  | .ctxDone => { subCloseCalls := 1, outputCloseCalls := 1, wgDoneCalls := 1 }

/-- The combined effects of all launched watcher goroutines of one `Subscribe`
call once the trigger has fired: each watcher in the list runs `watcherRun`. -/
def totalWatcherEffects (t : WatcherTrigger) (watchers : List Nat) : WatcherEffects :=
  watchers.foldl
    (fun acc _ =>
      let w := watcherRun t
      { subCloseCalls := acc.subCloseCalls + w.subCloseCalls,
        outputCloseCalls := acc.outputCloseCalls + w.outputCloseCalls,
        wgDoneCalls := acc.wgDoneCalls + w.wgDoneCalls })
    { subCloseCalls := 0, outputCloseCalls := 0, wgDoneCalls := 0 }

/-- The subscriber state that `Close` reads and writes: the one-shot `closed`
flag, how many times `close(s.closing)` has broadcast, how many times
`s.conn.Close()` has run, the `outputsWg` counter together with the number of
`Done` calls that launched watchers will eventually perform, and the configured
close timeout. -/
structure SubscriberState where
  closed : Bool
  closingBroadcasts : Nat
  connCloseCalls : Nat
  outputsWgCounter : Nat
  pendingWatcherDones : Nat
  closeTimeout : Duration
deriving DecidableEq, Repr

/-- The state of a freshly constructed subscriber. -/
def initialState (closeTimeout : Duration) : SubscriberState :=
  { closed := false, closingBroadcasts := 0, connCloseCalls := 0,
    outputsWgCounter := 0, pendingWatcherDones := 0, closeTimeout := closeTimeout }

/-- Fold a `Subscribe` call's wait-group traffic into the subscriber state: the
counter grows by the number of `wgAdd` events and the pending `Done` calls by
the number of launched watchers. -/
def applySubscribe (s : SubscriberState) (t : SubscribeAcc) : SubscriberState :=
  { s with
    outputsWgCounter := s.outputsWgCounter + t.events.count SubEvent.wgAdd,
    pendingWatcherDones := s.pendingWatcherDones + t.watchers.length }

/-- Modelled from the spec: `internalSync.WaitGroupTimeout` lives in
`internal/sync`, which is not under `src/`.  Per the spec, `Close` waits
"bounded by the configured close timeout, for all output-stream watchers to
finish; if the bound elapses first, proceed anyway — an accepted, logged
degradation, not an error".  When the pending watcher completions can bring the
counter to zero the wait finishes promptly (elapsed 0, since the closing
broadcast has just unblocked every watcher); otherwise the counter can never
reach zero and the full timeout elapses.  Returns (finished, elapsed). -/
def WaitGroupTimeout (counter pendingDones : Nat) (timeout : Duration) :
    Bool × Duration :=
  if counter ≤ pendingDones then (true, 0) else (false, timeout)

/-- The ordered observable steps of one `Close` call. -/
inductive CloseEvent where
  | setClosed
  | broadcastClosing
  | waitOutputs (timedOut : Bool) (elapsed : Duration)
  | connClose
deriving DecidableEq, Repr

/-- Result of one `Close` call: the new state, the returned error, and the
ordered event trace. -/
structure CloseCall where
  state : SubscriberState
  ret : Option String
  events : List CloseEvent
deriving DecidableEq, Repr

/-- Model of `StreamingSubscriber.Close` (lines 291-313).  Under the lock: if already
closed, return `nil` at once; otherwise set `closed`, broadcast `close(s.closing)`,
run the bounded wait (its outcome is discarded), and call `s.conn.Close()`,
wrapping its failure as "cannot close conn" — the only error `Close` returns. -/
def Close (s : SubscriberState) (connCloseErr : Option String) : CloseCall :=
  if s.closed then
    { state := s, ret := none, events := [] }
  else
    let s := { s with closed := true }
    let s := { s with closingBroadcasts := s.closingBroadcasts + 1 }
    let w := WaitGroupTimeout s.outputsWgCounter s.pendingWatcherDones s.closeTimeout
    let s := { s with connCloseCalls := s.connCloseCalls + 1 }
    { state := s,
      ret := connCloseErr.map (fun e => "cannot close conn: " ++ e),
      events := [CloseEvent.setClosed, CloseEvent.broadcastClosing,
        CloseEvent.waitOutputs (!w.1) w.2, CloseEvent.connClose] }

/-- A sequence of `Close` calls (each with its own would-be `conn.Close` error):
final state, the list of returned errors, and the concatenated event trace. -/
def closeSeq (s : SubscriberState) :
    List (Option String) → SubscriberState × List (Option String) × List CloseEvent
  | [] => (s, [], [])
  | e :: rest =>
    let c := Close s e
    let r := closeSeq c.state rest
    (r.1, c.ret :: r.2.1, c.events ++ r.2.2)

/-! Helper lemmas. -/

lemma watcherRun_subCloseCalls (t : WatcherTrigger) : (watcherRun t).subCloseCalls = 1 := by
  cases t <;> rfl

lemma watcherRun_outputCloseCalls (t : WatcherTrigger) : (watcherRun t).outputCloseCalls = 1 := by
  cases t <;> rfl

lemma watcherRun_wgDoneCalls (t : WatcherTrigger) : (watcherRun t).wgDoneCalls = 1 := by
  cases t <;> rfl

lemma totalWatcherEffects_foldl (t : WatcherTrigger) (ws : List Nat) :
    ∀ acc : WatcherEffects,
      (ws.foldl
        (fun acc _ =>
          let w := watcherRun t
          { subCloseCalls := acc.subCloseCalls + w.subCloseCalls,
            outputCloseCalls := acc.outputCloseCalls + w.outputCloseCalls,
            wgDoneCalls := acc.wgDoneCalls + w.wgDoneCalls }) acc).wgDoneCalls =
        acc.wgDoneCalls + ws.length := by
  induction ws with
  | nil => intro acc; simp
  | cons i rest ih =>
    intro acc
    simp only [List.foldl_cons, List.length_cons]
    rw [ih]
    simp [watcherRun_wgDoneCalls]
    omega

lemma totalWatcherEffects_wgDoneCalls (t : WatcherTrigger) (ws : List Nat) :
    (totalWatcherEffects t ws).wgDoneCalls = ws.length := by
  unfold totalWatcherEffects
  rw [totalWatcherEffects_foldl]
  simp

lemma Close_of_closed (s : SubscriberState) (e : Option String) (h : s.closed = true) :
    Close s e = { state := s, ret := none, events := [] } := by
  simp [Close, h]

lemma Close_state_of_not_closed (s : SubscriberState) (e : Option String)
    (h : s.closed = false) :
    (Close s e).state =
      { s with
        closed := true,
        closingBroadcasts := s.closingBroadcasts + 1,
        connCloseCalls := s.connCloseCalls + 1 } := by
  simp [Close, h]

lemma closeSeq_of_closed (errs : List (Option String)) :
    ∀ s : SubscriberState, s.closed = true →
      closeSeq s errs = (s, errs.map (fun _ => none), []) := by
  induction errs with
  | nil => intro s _; rfl
  | cons e rest ih =>
    intro s h
    simp only [closeSeq, Close_of_closed s e h]
    rw [ih s h]
    simp

lemma subscribeWorkers_events_extend (subErr : Nat → Option String) :
    ∀ (l : List Nat) (acc : SubscribeAcc), ∃ suffix,
      (subscribeWorkers subErr l acc).events = acc.events ++ suffix ∧
      ∀ x ∈ suffix, x ≠ SubEvent.wgAdd ∧ ∀ i, x ≠ SubEvent.subClose i := by
  intro l
  induction l with
  | nil =>
    intro acc
    exact ⟨[], by simp [subscribeWorkers], by simp⟩
  | cons i rest ih =>
    intro acc
    cases h : subErr i with
    | some e =>
      refine ⟨[SubEvent.brokerSubscribe i false], by simp [subscribeWorkers, h], ?_⟩
      intro x hx
      simp only [List.mem_singleton] at hx
      subst hx
      exact ⟨by simp, fun j => by simp⟩
    | none =>
      obtain ⟨suffix, hev, hmem⟩ := ih
        { events := acc.events ++
            [SubEvent.brokerSubscribe i true, SubEvent.watcherLaunch i, SubEvent.register i],
          watchers := acc.watchers ++ [i],
          registered := acc.registered ++ [i],
          err := acc.err }
      refine ⟨[SubEvent.brokerSubscribe i true, SubEvent.watcherLaunch i,
          SubEvent.register i] ++ suffix, ?_, ?_⟩
      · simp only [subscribeWorkers, h]
        rw [hev]
        simp
      · intro x hx
        rcases List.mem_append.mp hx with hx' | hx'
        · simp only [List.mem_cons, List.mem_singleton] at hx'
          rcases hx' with rfl | rfl | rfl | h'
          · exact ⟨by simp, fun j => by simp⟩
          · exact ⟨by simp, fun j => by simp⟩
          · exact ⟨by simp, fun j => by simp⟩
          · exact absurd h' (List.not_mem_nil x)
        · exact hmem x hx'

lemma subscribeWorkers_fail (subErr : Nat → Option String) (e : String) (k : Nat) :
    ∀ (s n : Nat) (acc : SubscribeAcc), (∀ j, j < k → subErr (s + j) = none) →
      subErr (s + k) = some e → k < n →
      (subscribeWorkers subErr (List.range' s n) acc).err =
          some ("cannot subscribe: " ++ e) ∧
      (subscribeWorkers subErr (List.range' s n) acc).watchers =
          acc.watchers ++ List.range' s k ∧
      (subscribeWorkers subErr (List.range' s n) acc).registered =
          acc.registered ++ List.range' s k := by
  induction k with
  | zero =>
    intro s n acc hok hfail hlt
    obtain ⟨m, rfl⟩ : ∃ m, n = m + 1 := ⟨n - 1, by omega⟩
    rw [List.range'_succ]
    have hf : subErr s = some e := by simpa using hfail
    simp [subscribeWorkers, hf]
  | succ k ih =>
    intro s n acc hok hfail hlt
    obtain ⟨m, rfl⟩ : ∃ m, n = m + 1 := ⟨n - 1, by omega⟩
    rw [List.range'_succ]
    have h0 : subErr s = none := by simpa using hok 0 (by omega)
    simp only [subscribeWorkers, h0]
    have hok' : ∀ j, j < k → subErr (s + 1 + j) = none := by
      intro j hj
      have := hok (j + 1) (by omega)
      rwa [show s + (j + 1) = s + 1 + j by omega] at this
    have hfail' : subErr (s + 1 + k) = some e := by
      rwa [show s + (k + 1) = s + 1 + k by omega] at hfail
    have main := ih (s + 1) m
      { events := acc.events ++
          [SubEvent.brokerSubscribe s true, SubEvent.watcherLaunch s, SubEvent.register s],
        watchers := acc.watchers ++ [s],
        registered := acc.registered ++ [s],
        err := acc.err }
      hok' hfail' (by omega)
    refine ⟨main.1, ?_, ?_⟩
    · rw [main.2.1, List.range'_succ]
      simp
    · rw [main.2.2, List.range'_succ]
      simp

/-! Claim theorems. -/

/-- C1: the claim says the shared output stream is closed exactly once for every
worker count `N ≥ 1`; in the code every one of the `N` watcher goroutines calls
`close(output)`, so at `N = 2` (legal with a queue group) the shared channel is
closed twice. -/
theorem C1_output_close_called_twice :
    (SubscribeRun 2 (fun _ => none)).watchers = [0, 1] ∧
    (totalWatcherEffects WatcherTrigger.closingSignal
        (SubscribeRun 2 (fun _ => none)).watchers).outputCloseCalls = 2 ∧
    (totalWatcherEffects WatcherTrigger.closingSignal
        (SubscribeRun 2 (fun _ => none)).watchers).outputCloseCalls ≠ 1 := by
  refine ⟨rfl, rfl, by decide⟩

/-- C2: for a delivered message (unmarshaled and sent on the output stream),
`m.Ack()` is called exactly once when the consumer acks, and zero times when the
resolution is a nack, the ack-wait timeout, or the closing signal. -/
theorem C2_ack_called_exactly_once_on_ack (msg : WMessage) (ackErr : Option String) :
    (processMessage false (some msg) DeliverOutcome.sent Resolution.acked ackErr).ackCalls = 1 ∧
    (processMessage false (some msg) DeliverOutcome.sent Resolution.nacked ackErr).ackCalls = 0 ∧
    (processMessage false (some msg) DeliverOutcome.sent Resolution.ackWaitTimedOut ackErr).ackCalls = 0 ∧
    (processMessage false (some msg) DeliverOutcome.sent Resolution.closingFired ackErr).ackCalls = 0 :=
  ⟨rfl, rfl, rfl, rfl⟩

/-- C3: `Close` is idempotent — starting from a fresh subscriber, any sequence of
calls invokes `conn.Close()` exactly once, and every call after the first
returns success (`nil`). -/
theorem C3_close_idempotent (ct : Duration) (e0 : Option String)
    (errs : List (Option String)) :
    (closeSeq (initialState ct) (e0 :: errs)).1.connCloseCalls = 1 ∧
    (closeSeq (initialState ct) (e0 :: errs)).2.1 =
      (Close (initialState ct) e0).ret :: errs.map (fun _ => none) := by
  have hstate : (Close (initialState ct) e0).state =
      { initialState ct with
        closed := true,
        closingBroadcasts := 1,
        connCloseCalls := 1 } := by
    rw [Close_state_of_not_closed (initialState ct) e0 rfl]
    simp [initialState]
  have hclosed : (Close (initialState ct) e0).state.closed = true := by rw [hstate]
  simp only [closeSeq]
  rw [closeSeq_of_closed errs _ hclosed]
  refine ⟨?_, rfl⟩
  rw [hstate]

/-- C4: on the first call to `Close` the steps run in order — flip the closed
flag, broadcast the closing signal exactly once, run the bounded wait (which
elapses either immediately or for the full close timeout), close the broker
connection — and the only error `Close` can return is the wrapped
`conn.Close()` failure, independent of whether the bound elapsed. -/
theorem C4_first_close_steps (s : SubscriberState) (e : Option String)
    (h : s.closed = false) :
    (Close s e).events =
      [CloseEvent.setClosed, CloseEvent.broadcastClosing,
        CloseEvent.waitOutputs
          (!(WaitGroupTimeout s.outputsWgCounter s.pendingWatcherDones s.closeTimeout).1)
          (WaitGroupTimeout s.outputsWgCounter s.pendingWatcherDones s.closeTimeout).2,
        CloseEvent.connClose] ∧
    ((WaitGroupTimeout s.outputsWgCounter s.pendingWatcherDones s.closeTimeout).2 = 0 ∨
      (WaitGroupTimeout s.outputsWgCounter s.pendingWatcherDones s.closeTimeout).2 =
        s.closeTimeout) ∧
    (Close s e).ret = e.map (fun x => "cannot close conn: " ++ x) ∧
    (Close s e).state.closingBroadcasts = s.closingBroadcasts + 1 := by
  refine ⟨?_, ?_, ?_, ?_⟩
  · simp [Close, h]
  · unfold WaitGroupTimeout
    split_ifs <;> simp
  · simp [Close, h]
  · simp [Close, h]

/-- Closed-form witness for C4 at a fresh subscriber with a 30-second close
timeout and a successful `conn.Close()`. -/
theorem C4_first_close_steps_witness :
    (Close (initialState (timeSecond * 30)) none).ret = none ∧
    (Close (initialState (timeSecond * 30)) none).state.closingBroadcasts = 1 := by
  have h := C4_first_close_steps (initialState (timeSecond * 30)) none rfl
  exact ⟨by simpa using h.2.2.1, by simpa using h.2.2.2⟩

/-- C5: a message whose unmarshaling fails is logged and dropped — zero sends on
the output stream and zero broker ack calls, on every environment. -/
theorem C5_unmarshal_failure_drops (deliver : DeliverOutcome) (res : Resolution)
    (ackErr : Option String) :
    (processMessage false none deliver res ackErr).outputSends = 0 ∧
    (processMessage false none deliver res ackErr).ackCalls = 0 ∧
    (processMessage false none deliver res ackErr).unmarshalErrorLogged = true :=
  ⟨rfl, rfl, rfl⟩

/-- C6: for every successfully unmarshaled message the per-message cancellable
scope is cancelled by the time `processMessage` returns, on every exit path
(ack, nack, ack-wait timeout, closing during delivery, closing during the
resolution wait). -/
theorem C6_scope_always_cancelled (msg : WMessage) (deliver : DeliverOutcome)
    (res : Resolution) (ackErr : Option String) :
    (processMessage false (some msg) deliver res ackErr).cancelCalled = true := by
  cases deliver <;> cases res <;> rfl

/-- C7: `Validate` fails exactly when the unmarshaler is unset or the worker
count exceeds 1 with no queue group; and whenever validation of the defaulted
config fails, the constructor returns that error without attempting to connect
to the broker. -/
theorem C7_validation_iff_and_before_connect (c : StreamingSubscriberConfig)
    (conn : ConnectOutcome) :
    (c.Validate.isSome ↔
      (c.Unmarshaler.isNone ∨ (c.QueueGroup = "" ∧ c.SubscribersCount > 1))) ∧
    (c.setDefaults.Validate.isSome →
      (NewStreamingSubscriber c conn).connectAttempted = false ∧
      (NewStreamingSubscriber c conn).err = c.setDefaults.Validate) := by
  constructor
  · unfold StreamingSubscriberConfig.Validate
    split_ifs with h1 h2
    · simp [h1]
    · simp [h1, h2]
    · simp [h1, h2]
  · intro hv
    obtain ⟨e, he⟩ := Option.isSome_iff_exists.mp hv
    unfold NewStreamingSubscriber
    rw [he]
    exact ⟨rfl, rfl⟩

/-- A concrete config whose unmarshaler is unset. -/
def cfgNoUnmarshaler : StreamingSubscriberConfig :=
  { ClusterID := "test-cluster", ClientID := "client-1", QueueGroup := "",
    DurableName := "", SubscribersCount := 0, CloseTimeout := 0,
    AckWaitTimeout := 0, StanSubscriptionOptions := [], Unmarshaler := none }

/-- Closed-form witness for C7: with the unmarshaler unset, the constructor
fails without attempting a broker connection. -/
theorem C7_validation_witness :
    (NewStreamingSubscriber cfgNoUnmarshaler ConnectOutcome.ok).connectAttempted = false :=
  ((C7_validation_iff_and_before_connect cfgNoUnmarshaler ConnectOutcome.ok).2 rfl).1

/-- C8: `setDefaults` fills an unset (`≤ 0`) worker count with 1 and unset
(`≤ 0`) close and ack-wait timeouts with 30 seconds, always appends the
manual-ack option and an ack-wait option carrying the (possibly defaulted)
ack-wait timeout, and appends a durable-name option exactly when the durable
name is set. -/
theorem C8_setDefaults_shape (c : StreamingSubscriberConfig) :
    c.setDefaults.SubscribersCount =
      (if c.SubscribersCount ≤ 0 then 1 else c.SubscribersCount) ∧
    c.setDefaults.CloseTimeout =
      (if c.CloseTimeout ≤ 0 then timeSecond * 30 else c.CloseTimeout) ∧
    c.setDefaults.AckWaitTimeout =
      (if c.AckWaitTimeout ≤ 0 then timeSecond * 30 else c.AckWaitTimeout) ∧
    c.setDefaults.StanSubscriptionOptions =
      c.StanSubscriptionOptions ++
        [SubscriptionOption.setManualAckMode,
          SubscriptionOption.ackWait c.setDefaults.AckWaitTimeout] ++
        (if c.DurableName = "" then []
          else [SubscriptionOption.durableName c.DurableName]) := by
  unfold StreamingSubscriberConfig.setDefaults
  by_cases h1 : c.SubscribersCount ≤ 0 <;>
    by_cases h2 : c.CloseTimeout ≤ 0 <;>
      by_cases h3 : c.AckWaitTimeout ≤ 0 <;>
        by_cases h4 : c.DurableName = "" <;>
          simp [h1, h2, h3, h4]

/-- C9: when worker `k`'s broker subscribe fails (all earlier ones having
succeeded), `Subscribe` returns the wrapped error, the `k` already-started
workers remain registered with their watchers launched, and `Subscribe` itself
issues no subscription close (teardown happens only in the watchers, on the
closing signal or the caller scope's cancellation). -/
theorem C9_subscribe_failure_no_rollback (N k : Nat) (e : String)
    (subErr : Nat → Option String) (hk : k < N)
    (hok : ∀ j, j < k → subErr j = none) (hfail : subErr k = some e) :
    (SubscribeRun N subErr).err = some ("cannot subscribe: " ++ e) ∧
    (SubscribeRun N subErr).registered = List.range k ∧
    (SubscribeRun N subErr).watchers = List.range k ∧
    ∀ i, SubEvent.subClose i ∉ (SubscribeRun N subErr).events := by
  unfold SubscribeRun
  rw [List.range_eq_range']
  have main := subscribeWorkers_fail subErr e k 0 N
    { events := [SubEvent.wgAdd], watchers := [], registered := [], err := none }
    (by simpa using hok) (by simpa using hfail) hk
  refine ⟨main.1, ?_, ?_, ?_⟩
  · rw [main.2.2]
    simp [List.range_eq_range']
  · rw [main.2.1]
    simp [List.range_eq_range']
  · intro i
    obtain ⟨suffix, hev, hmem⟩ := subscribeWorkers_events_extend subErr (List.range' 0 N)
      { events := [SubEvent.wgAdd], watchers := [], registered := [], err := none }
    rw [hev]
    intro habs
    rcases List.mem_append.mp habs with h' | h'
    · simp at h'
    · exact (hmem _ h').2 i rfl

/-- Closed-form witness for C9: three configured workers, worker 0 subscribes
fine, worker 1's broker subscribe fails. -/
theorem C9_subscribe_failure_witness :
    (SubscribeRun 3 (fun i => if i = 0 then none else some "broker down")).registered =
      List.range 1 ∧
    (SubscribeRun 3 (fun i => if i = 0 then none else some "broker down")).err =
      some "cannot subscribe: broker down" := by
  have h := C9_subscribe_failure_no_rollback 3 1 "broker down"
    (fun i => if i = 0 then none else some "broker down") (by omega)
    (fun j hj => by
      have hj0 : j = 0 := by omega
      subst hj0
      rfl)
    rfl
  exact ⟨h.2.1, by simpa using h.1⟩

/-- C10: every `Subscribe` call performs `outputsWg.Add(1)` exactly once, as its
first step before any worker is handled, while each launched watcher performs
exactly one `Done`; hence when worker 0's broker subscribe fails no watcher
exists, the counter is left at 1 forever, and the (first effective) subsequent
`Close` runs its bounded wait for the full configured close timeout before
closing the broker connection, while any later `Close` call is a no-op. -/
theorem C10_wait_group_imbalance (N : Nat) (subErr : Nat → Option String)
    (ct : Duration) (e : String) (cErr : Option String)
    (hN : 0 < N) (hfail : subErr 0 = some e) :
    (SubscribeRun N subErr).events.count SubEvent.wgAdd = 1 ∧
    (SubscribeRun N subErr).events.head? = some SubEvent.wgAdd ∧
    (∀ t ws, (totalWatcherEffects t ws).wgDoneCalls = ws.length) ∧
    (applySubscribe (initialState ct) (SubscribeRun N subErr)).outputsWgCounter = 1 ∧
    (applySubscribe (initialState ct) (SubscribeRun N subErr)).pendingWatcherDones = 0 ∧
    (Close (applySubscribe (initialState ct) (SubscribeRun N subErr)) cErr).events =
      [CloseEvent.setClosed, CloseEvent.broadcastClosing,
        CloseEvent.waitOutputs true ct, CloseEvent.connClose] ∧
    (∀ errs, (closeSeq
        (Close (applySubscribe (initialState ct) (SubscribeRun N subErr)) cErr).state
        errs).2.2 = []) := by
  obtain ⟨suffix, hev, hmem⟩ := subscribeWorkers_events_extend subErr (List.range' 0 N)
    { events := [SubEvent.wgAdd], watchers := [], registered := [], err := none }
  have hevents : (SubscribeRun N subErr).events = SubEvent.wgAdd :: suffix := by
    unfold SubscribeRun
    rw [List.range_eq_range', hev]
    rfl
  have hcount : (SubscribeRun N subErr).events.count SubEvent.wgAdd = 1 := by
    rw [hevents, List.count_cons_self, List.count_eq_zero_of_not_mem]
    intro habs
    exact (hmem _ habs).1 rfl
  have hwatchers : (SubscribeRun N subErr).watchers = [] := by
    unfold SubscribeRun
    rw [List.range_eq_range']
    have main := subscribeWorkers_fail subErr e 0 0 N
      { events := [SubEvent.wgAdd], watchers := [], registered := [], err := none }
      (by omega) (by simpa using hfail) hN
    rw [main.2.1]
    rfl
  have hcounter :
      (applySubscribe (initialState ct) (SubscribeRun N subErr)).outputsWgCounter = 1 := by
    simp [applySubscribe, initialState, hcount]
  have hpending :
      (applySubscribe (initialState ct) (SubscribeRun N subErr)).pendingWatcherDones = 0 := by
    simp [applySubscribe, initialState, hwatchers]
  have hct : (applySubscribe (initialState ct) (SubscribeRun N subErr)).closeTimeout = ct := by
    simp [applySubscribe, initialState]
  have hnotclosed : (applySubscribe (initialState ct) (SubscribeRun N subErr)).closed = false := by
    simp [applySubscribe, initialState]
  refine ⟨hcount, ?_, totalWatcherEffects_wgDoneCalls, hcounter, hpending, ?_, ?_⟩
  · rw [hevents]
    rfl
  · simp [Close, hnotclosed, WaitGroupTimeout, hcounter, hpending, hct]
  · intro errs
    have hclosed : (Close (applySubscribe (initialState ct) (SubscribeRun N subErr))
        cErr).state.closed = true := by
      rw [Close_state_of_not_closed _ cErr hnotclosed]
    rw [closeSeq_of_closed errs _ hclosed]

/-- Closed-form witness for C10: one configured worker whose broker subscribe
fails; the following `Close` waits the full 5-nanosecond close timeout. -/
theorem C10_wait_group_imbalance_witness :
    (applySubscribe (initialState 5) (SubscribeRun 1 (fun _ => some "boom"))).outputsWgCounter
      = 1 ∧
    (Close (applySubscribe (initialState 5) (SubscribeRun 1 (fun _ => some "boom")))
        none).events =
      [CloseEvent.setClosed, CloseEvent.broadcastClosing,
        CloseEvent.waitOutputs true 5, CloseEvent.connClose] := by
  have h := C10_wait_group_imbalance 1 (fun _ => some "boom") 5 "boom" none
    (by omega) rfl
  exact ⟨h.2.2.2.1, h.2.2.2.2.2.1⟩

end WatermillNats
